import Mathlib

set_option maxRecDepth 8000

/-! Shallow embedding of the SIR simulation core of src/train.py (and the
history route of src/app.py).  Scalars are modelled as rationals: each
arithmetic operation the code performs on IEEE doubles is mapped to the
corresponding exact operation on `ℚ`, and a division whose IEEE result would
be non-finite or NaN (zero divisor) is modelled as `Option.none`.  The
transcendental library routines `np.sin` and `np.exp` and the constant
`np.pi` are taken as parameters `sn`, `ex`, `piv`; the single fact the proofs
use about them, `np.sin(0.0) = 0.0` (exact in IEEE arithmetic), is stated as
a hypothesis where needed. -/

/-- Float division `a / b`: a zero divisor yields `inf` or `NaN` on floats
(never a finite value), modelled as `Option.none`; otherwise exact. -/
def fdiv (a b : ℚ) : Option ℚ :=
  if b = 0 then Option.none else some (a / b)

/-- Minimum of a numpy array (`t.min()`), as a fold over a list; numpy raises
on an empty array, the `[]` case below is never reached in guarded uses. -/
def listMin : List ℚ → ℚ
  | [] => 0
  | x :: xs => xs.foldl min x

/-- Maximum of a numpy array (`t.max()`). -/
def listMax : List ℚ → ℚ
  | [] => 0
  | x :: xs => xs.foldl max x

/-- One sample of `control_signal` in src/train.py: the value the vectorised
numpy expression assigns at time `t`, where `tmin`, `tmax` are `t.min()` and
`t.max()` of the whole array.  Branches follow the source exactly:
`step` compares `t >= step_time` with default `(t.max() - t.min()) / 2.0`;
`impulse` is the Gaussian bump with width `max((t.max()-t.min())*0.02, 0.5)`;
`ramp` divides by the raw span `t.max() - t.min()` (no floor, hence NaN when
the span is zero); `sin` divides by `max(1.0, t.max() - t.min())`;
every other string falls to `np.ones_like(t)`. -/
def controlSample (sn ex : ℚ → ℚ) (piv : ℚ) (signal_type : String)
    (amp freq : ℚ) (step_time : Option ℚ) (tmin tmax t : ℚ) : Option ℚ :=
  if signal_type = "step" then
    some (if step_time.getD ((tmax - tmin) / 2) ≤ t then 1 + amp else 1)
  else if signal_type = "impulse" then
    (fdiv (t - step_time.getD ((tmax + tmin) / 2))
        (max ((tmax - tmin) * (2 / 100)) (1 / 2))).map
      (fun r => 1 + amp * ex (-(1 / 2) * r ^ 2))
  else if signal_type = "ramp" then
    (fdiv (t - tmin) (tmax - tmin)).map (fun r => 1 + amp * r)
  else if signal_type = "sin" then
    (fdiv (2 * piv * freq * (t - tmin)) (max 1 (tmax - tmin))).map
      (fun r => 1 + amp * sn r)
  else
    some 1

/-- `control_signal(t, signal_type, amp, freq, step_time)` of src/train.py:
the vectorised expression evaluated at every sample of the array `ts`. -/
def control_signal (sn ex : ℚ → ℚ) (piv : ℚ) (signal_type : String)
    (amp freq : ℚ) (step_time : Option ℚ) (ts : List ℚ) : List (Option ℚ) :=
  ts.map (fun t => controlSample sn ex piv signal_type amp freq step_time
    (listMin ts) (listMax ts) t)

/-- `sir_ode(y, t, beta, gamma, N, ...)` of src/train.py.  The code evaluates
`control_signal(np.array([t]), ...)[0]` — a one-element array, so both
`t.min()` and `t.max()` equal the scalar `t` — then returns
`[-beta_eff*S*I/N, beta_eff*S*I/N - gamma*I, gamma*I]` with
`beta_eff = beta * u`.  A NaN control value or a zero `N` makes the
derivative vector non-finite, modelled as `Option.none`. -/
def sir_ode (sn ex : ℚ → ℚ) (piv : ℚ) (y : ℚ × ℚ × ℚ) (t beta gamma N : ℚ)
    (signal_type : String) (amp freq : ℚ) (step_time : Option ℚ) :
    Option (ℚ × ℚ × ℚ) :=
  ((control_signal sn ex piv signal_type amp freq step_time [t]).headD
      Option.none).bind fun u =>
    let beta_eff := beta * u
    (fdiv (beta_eff * y.1 * y.2.1) N).map fun c =>
      (-c, c - gamma * y.2.1, gamma * y.2.1)

/-- The empty string (the sentinel the history code stores for a missing
optional value, and the cell `pd.read_csv` reports as NaN). -/
def emptyStr : String := ""

/-- An IEEE value as the summary code distinguishes it: a finite value or
`float("inf")`. -/
inductive XQ
  | fin (q : ℚ)
  | inf
deriving DecidableEq

/-- Python `x > c` on an extended value (`inf > c` is true). -/
def XQ.gtQ : XQ → ℚ → Bool
  | .inf, _ => true
  | .fin q, c => c < q

/-- Python `x <= c` on an extended value (`inf <= c` is false). -/
def XQ.leQ : XQ → ℚ → Bool
  | .inf, _ => false
  | .fin q, c => q ≤ c

/-- The three severity tiers of the narrative in generate_summary:
`R0_basic > 1.5`, `1.0 < R0_basic <= 1.5`, and the final else. -/
inductive SpreadTier
  | fast
  | moderate
  | controlled
deriving DecidableEq

/-- Which control-signal sentence the narrative appends: the no-signal
sentence, the `max_u > 1.05` sentence (with its `max_u`), or the
small-change sentence (with its `mean_u`).  The payloads are `Option`
because `np.nanmax`/`np.nanmean` of an all-NaN vector are NaN. -/
inductive SignalEffect
  | noSignal
  | increased (max_u : Option ℚ)
  | small (mean_u : Option ℚ)
deriving DecidableEq

/-- The recommendation sentence: intervention when `R0_basic > 1.5`,
continued observation otherwise. -/
inductive Advice
  | intervene
  | observe
deriving DecidableEq

/-- The loop inside `np.nanargmax` on a NaN-free array: running best index
`bi` and best value `bv`, updated only on a strictly larger value, so the
first occurrence of the maximum wins. -/
def nanargmaxAux : List ℚ → Nat → Nat → ℚ → Nat
  | [], _, bi, _ => bi
  | x :: xs, i, bi, bv =>
    if bv < x then nanargmaxAux xs (i + 1) i x
    else nanargmaxAux xs (i + 1) bi bv

/-- `np.nanargmax` on a NaN-free array: the index of the first occurrence of
the maximum.  numpy raises on an empty array; callers guard that case. -/
def nanargmax : List ℚ → Nat
  | [] => 0
  | x :: xs => nanargmaxAux xs 1 0 x

/-- The non-NaN entries of a float vector (`np.nan*` reductions skip NaN). -/
def nanList (u : List (Option ℚ)) : List ℚ :=
  u.filterMap id

/-- `np.nanmax` on a nonempty array: NaN (`Option.none`) when every entry is
NaN (numpy only warns there).  On a zero-size array numpy instead raises
ValueError; callers guard that case (generate_summary models the raise). -/
def nanmax (u : List (Option ℚ)) : Option ℚ :=
  match nanList u with
  | [] => Option.none
  | x :: xs => some (xs.foldl max x)

/-- `np.nanmean`: NaN (`Option.none`) when every entry is NaN. -/
def nanmean (u : List (Option ℚ)) : Option ℚ :=
  match nanList u with
  | [] => Option.none
  | x :: xs => some ((x :: xs).sum / (x :: xs).length)

/-- The data generate_summary derives: the statistics dictionary plus the
discrete choices its narrative text is assembled from. -/
structure SummaryOut where
  peak_I : ℚ
  peak_day : ℚ
  final_S : ℚ
  final_I : ℚ
  final_R : ℚ
  R0_basic : XQ
  tier : SpreadTier
  effect : SignalEffect
  advice : Advice
deriving DecidableEq

/-- `generate_summary(...)` of src/train.py.  Its float statistics are taken
exactly as the code computes them: `peak_idx = np.nanargmax(I)`,
`peak_I = I[peak_idx]`, `peak_day = t[peak_idx]`, finals are the `[-1]`
samples, `R0_basic = beta/gamma if gamma != 0 else float("inf")`; the
narrative's branches are mirrored as the discrete fields of `SummaryOut`.
`Option.none` models the errors numpy raises: the indexing ones (empty `I`,
an index past the end of `t`, empty `S`/`R`) and the ValueError from
`np.nanmax(u)` when a signal other than none is active and `u` is a
zero-size array. -/
def generate_summary (beta gamma N I0 R0 days : ℚ) (t S I R : List ℚ)
    (u : List (Option ℚ)) (signal_type : String) : Option SummaryOut :=
  if I = [] ∨ t.length ≤ nanargmax I ∨ S = [] ∨ R = [] ∨
      ((signal_type ≠ emptyStr ∧ signal_type ≠ "none") ∧ u = []) then
    Option.none
  else
    some
      { peak_I := I.getD (nanargmax I) 0
        peak_day := t.getD (nanargmax I) 0
        final_S := S.getLastD 0
        final_I := I.getLastD 0
        final_R := R.getLastD 0
        R0_basic := if gamma ≠ 0 then XQ.fin (beta / gamma) else XQ.inf
        tier :=
          if ((if gamma ≠ 0 then XQ.fin (beta / gamma) else XQ.inf).gtQ (3 / 2)) then
            SpreadTier.fast
          else if ((if gamma ≠ 0 then XQ.fin (beta / gamma) else XQ.inf).gtQ 1 &&
              (if gamma ≠ 0 then XQ.fin (beta / gamma) else XQ.inf).leQ (3 / 2)) then
            SpreadTier.moderate
          else SpreadTier.controlled
        effect :=
          if signal_type ≠ emptyStr ∧ signal_type ≠ "none" then
            if (nanmax u).any (fun m => (21 : ℚ) / 20 < m) then
              SignalEffect.increased (nanmax u)
            else SignalEffect.small (nanmean u)
          else SignalEffect.noSignal
        advice :=
          if ((if gamma ≠ 0 then XQ.fin (beta / gamma) else XQ.inf).gtQ (3 / 2)) then
            Advice.intervene
          else Advice.observe }

/-- One row of data/history.csv as save_history_entry writes it.  A Python
`None` in `step_time` is stored as the empty-string sentinel and a `None`
statistic as an empty cell; both are modelled as `Option.none`.  A `None`
summary is stored as the empty string. -/
structure HistoryRecord where
  id : String
  timestamp : String
  beta : ℚ
  gamma : ℚ
  N : ℚ
  I0 : ℚ
  R0 : ℚ
  days : ℚ
  signal : String
  amp : ℚ
  freq : ℚ
  step_time : Option ℚ
  peak_I : Option ℚ
  peak_day : Option ℚ
  final_S : Option ℚ
  final_I : Option ℚ
  final_R : Option ℚ
  summary : String
deriving DecidableEq

/-- `save_history_entry(...)` of src/train.py over the record view of the
store: the CSV read-concat-write round trip is modelled as appending one
record to the stored list.  The `uuid.uuid4()` and `datetime.utcnow()`
environment values enter as the explicit inputs `entry_id` and `ts`.
Returns the new store and, as the code does, the fresh id. -/
def save_history_entry (store : List HistoryRecord) (entry_id ts : String)
    (beta gamma N I0 R0 days : ℚ) (signal_type : String) (amp freq : ℚ)
    (step_time : Option ℚ) (summary_text : Option String)
    (peak_I peak_day final_S final_I final_R : Option ℚ) :
    List HistoryRecord × String :=
  (store ++
    [{ id := entry_id, timestamp := ts, beta := beta, gamma := gamma, N := N,
       I0 := I0, R0 := R0, days := days, signal := signal_type, amp := amp,
       freq := freq, step_time := step_time, peak_I := peak_I,
       peak_day := peak_day, final_S := final_S, final_I := final_I,
       final_R := final_R, summary := summary_text.getD emptyStr }],
   entry_id)

/-- `get_history_entry(entry_id)` of src/train.py: `df[df["id"] == entry_id]`
keeps the matching rows in order, `row.iloc[0]` takes the first, an empty
selection returns `None`. -/
def get_history_entry (store : List HistoryRecord) (entry_id : String) :
    Option HistoryRecord :=
  (store.filter (fun r => r.id == entry_id)).head?

/-- The canonical 18-column schema of data/history.csv. -/
def canonicalCols : List String :=
  ["id", "timestamp", "beta", "gamma", "N", "I0", "R0", "days", "signal",
   "amp", "freq", "step_time", "peak_I", "peak_day", "final_S", "final_I",
   "final_R", "summary"]

/-- Byte size of one CSV line: its cells, a comma between neighbours and the
newline, so cell lengths plus the cell count. -/
def lineSize (r : List String) : Nat :=
  (r.map String.length).sum + r.length

/-- `_ensure_history()` of src/train.py over the raw-file view of the store
(`Option.none` = no file; a line is a list of cells): create the header-only
file when absent; when the file is under 200 bytes and holds at most one
line, rewrite it as the header-only file. -/
def ensure_history (f : Option (List (List String))) : List (List String) :=
  match f with
  | Option.none => [canonicalCols]
  | some ls =>
    if (ls.map lineSize).sum < 200 ∧ ls.length ≤ 1 then [canonicalCols]
    else ls

/-- A parsed DataFrame: column names and data rows. -/
structure HistoryDF where
  cols : List String
  rows : List (List String)
deriving DecidableEq

/-- `pd.read_csv`: the first line is the header, the rest are rows; a file
with no lines at all raises EmptyDataError, modelled as `Option.none`. -/
def read_csv (ls : List (List String)) : Option HistoryDF :=
  match ls with
  | [] => Option.none
  | h :: rows => some { cols := h, rows := rows }

/-- `load_history_df()` of src/train.py: ensure the store, read it, and hand
back a fresh empty frame with the canonical columns when it has no rows. -/
def load_history_df (f : Option (List (List String))) : Option HistoryDF :=
  (read_csv (ensure_history f)).map fun df =>
    if df.rows = [] then { cols := canonicalCols, rows := [] } else df

/-- Insertion step of a descending sort by a string key. -/
def insertDescByKey (key : List String → String) (x : List String) :
    List (List String) → List (List String)
  | [] => [x]
  | y :: ys =>
    if key y < key x then x :: y :: ys else y :: insertDescByKey key x ys

/-- Descending sort by a string key (`df.sort_values(..., ascending=False)`). -/
def sortDescByKey (key : List String → String) :
    List (List String) → List (List String)
  | [] => []
  | x :: xs => insertDescByKey key x (sortDescByKey key xs)

/-- The `history()` route of src/app.py: an absent timestamp column or an
empty frame gives an empty table; otherwise the rows with an empty (NaN)
timestamp cell are dropped and the rest sorted newest first. -/
def history_route (f : Option (List (List String))) :
    Option (List (List String)) :=
  (load_history_df f).map fun df =>
    if "timestamp" ∉ df.cols ∨ df.rows = [] then []
    else
      let kept := df.rows.filter
        (fun r => r.getD (List.indexOf "timestamp" df.cols) emptyStr != emptyStr)
      if kept = [] then []
      else sortDescByKey (fun r => r.getD (List.indexOf "timestamp" df.cols) emptyStr) kept

/-- `np.linspace(a, b, n)`: `n` evenly spaced samples from `a` to `b`
inclusive (`a + (b - a) * k / (n - 1)`); a single requested sample gives
`[a]`. -/
def linspace (a b : ℚ) (n : Nat) : List ℚ :=
  if n = 1 then [a]
  else (List.range n).map (fun k : Nat => a + (b - a) * (k : ℚ) / ((n : ℚ) - 1))

/-- `simulate_sir(...)` of src/train.py: clamp `S0 = max(N - I0 - R0, 0)`,
build the `npoints` grid over `[0, days]`, integrate `sir_ode` with
`scipy.integrate.odeint`, and recompute the control signal over the output
grid.  `odeint` is a third-party solver, taken as the parameter `solver`;
the theorems assume only its documented contract (one output row per
requested time, the first row equal to `y0`). -/
def simulate_sir
    (solver : ((ℚ × ℚ × ℚ) → ℚ → Option (ℚ × ℚ × ℚ)) → (ℚ × ℚ × ℚ) →
      List ℚ → List (ℚ × ℚ × ℚ))
    (sn ex : ℚ → ℚ) (piv : ℚ) (beta gamma N I0 R0 days : ℚ) (npoints : Nat)
    (signal_type : String) (amp freq : ℚ) (step_time : Option ℚ) :
    List ℚ × List (ℚ × ℚ × ℚ) × List (Option ℚ) :=
  (linspace 0 days npoints,
   solver
     (fun y tau => sir_ode sn ex piv y tau beta gamma N signal_type amp freq step_time)
     (max (N - I0 - R0) 0, I0, R0)
     (linspace 0 days npoints),
   control_signal sn ex piv signal_type amp freq step_time (linspace 0 days npoints))

/-- Away from the ramp branch, one control sample over a degenerate
single-point time set (tmin = tmax = t) is always a well-defined finite
value. -/
theorem controlSample_degenerate_defined (sn ex : ℚ → ℚ) (piv : ℚ)
    (signal_type : String) (amp freq t : ℚ) (step_time : Option ℚ)
    (h : signal_type ≠ "ramp") :
    ∃ v : ℚ, controlSample sn ex piv signal_type amp freq step_time t t t = some v := by
  unfold controlSample
  by_cases h1 : signal_type = "step"
  · rw [if_pos h1]
    exact ⟨_, rfl⟩
  rw [if_neg h1]
  by_cases h2 : signal_type = "impulse"
  · rw [if_pos h2]
    have hw : ((t - t) * (2 / 100) : ℚ) ⊔ 1 / 2 = 1 / 2 := by
      rw [sub_self, zero_mul]
      exact max_eq_right (by norm_num)
    rw [hw]
    unfold fdiv
    rw [if_neg (by norm_num : ¬ ((1 : ℚ) / 2 = 0))]
    exact ⟨_, rfl⟩
  rw [if_neg h2, if_neg h]
  by_cases h4 : signal_type = "sin"
  · rw [if_pos h4]
    unfold fdiv
    rw [if_neg (lt_of_lt_of_le zero_lt_one (le_max_left 1 (t - t))).ne']
    exact ⟨_, rfl⟩
  · rw [if_neg h4]
    exact ⟨1, rfl⟩

/-- Claim C1 (amended): for every signal type other than `ramp` (including
`none`, `step`, `impulse`, `sin` and unknown strings), `control_signal` on a
degenerate single-element time set raises no error and yields a well-defined
finite value for each sample; the `ramp` branch has no span floor and its
sample is NaN there (see the counterexample). -/
theorem control_signal_degenerate_defined (sn ex : ℚ → ℚ) (piv : ℚ)
    (signal_type : String) (amp freq t : ℚ) (step_time : Option ℚ)
    (h : signal_type ≠ "ramp") :
    ∀ uo ∈ control_signal sn ex piv signal_type amp freq step_time [t],
      ∃ v : ℚ, uo = some v := by
  intro uo huo
  simp only [control_signal, listMin, listMax, List.foldl_nil, List.map,
    List.mem_singleton] at huo
  subst huo
  exact controlSample_degenerate_defined sn ex piv signal_type amp freq t step_time h

/-- Witness for C1: the `sin` variant at the one-point time set {5}. -/
theorem control_signal_degenerate_defined_witness :
    (("sin" : String) ≠ "ramp") ∧
    ∀ uo ∈ control_signal (fun x => x) (fun x => x) (157 / 50) "sin" (1 / 2) 1
        Option.none [5],
      ∃ v : ℚ, uo = some v :=
  ⟨by decide,
   control_signal_degenerate_defined (fun x => x) (fun x => x) (157 / 50) "sin"
     (1 / 2) 1 5 Option.none (by decide)⟩

/-- Counterexample for C1: the `ramp` variant on the one-point time set {5}
computes `(t - min) / (max - min) = 0 / 0`, a NaN sample, not a well-defined
finite value. -/
theorem control_signal_ramp_degenerate_nan :
    control_signal (fun x => x) (fun x => x) (157 / 50) "ramp" (1 / 2) 1
        Option.none [5] = [Option.none] ∧
    ¬ ∀ uo ∈ control_signal (fun x => x) (fun x => x) (157 / 50) "ramp" (1 / 2) 1
        Option.none [5], ∃ v : ℚ, uo = some v := by
  constructor
  · simp [control_signal, controlSample, listMin, listMax, fdiv]
  · intro hall
    rcases hall Option.none (by simp [control_signal, controlSample, listMin, listMax, fdiv])
      with ⟨v, hv⟩
    exact Option.noConfusion hv

/-- Claim C2 (code evaluation at the failing input): on T = [10, 20] with
`step_time` unset, the code's default is `(t.max() - t.min()) / 2 = 5` —
the half-span, not the midpoint 15 that the docstring ("dipilih tengah t")
and the sibling impulse branch use — so the sample at t = 10 already gets
`1 + amp = 3/2` although 10 lies strictly below the midpoint. -/
theorem control_signal_step_default_half_span :
    control_signal (fun x => x) (fun x => x) (157 / 50) "step" (1 / 2) 1
        Option.none [10, 20] = [some (3 / 2), some (3 / 2)] ∧
    (10 : ℚ) < (10 + 20) / 2 := by
  constructor
  · simp only [control_signal, controlSample, listMin, listMax, List.foldl_cons,
      List.foldl_nil, List.map_cons, List.map_nil, Option.getD_none, if_true]
    norm_num
  · norm_num

/-- Claim C3: inside sir_ode the control signal is evaluated on the
one-element array [t], whose min and max are both t, so the `sin` variant's
argument is `sin(0) = 0` and the multiplier is exactly 1: the derivative
vector equals the `none` variant's for every state, time and parameters —
independent of amp and freq (the right-hand side carries different ones). -/
theorem sir_ode_sin_eq_none (sn ex : ℚ → ℚ) (piv : ℚ) (hsn : sn 0 = 0)
    (y : ℚ × ℚ × ℚ) (t beta gamma N amp freq amp2 freq2 : ℚ)
    (step_time step_time2 : Option ℚ) :
    sir_ode sn ex piv y t beta gamma N "sin" amp freq step_time =
      sir_ode sn ex piv y t beta gamma N "none" amp2 freq2 step_time2 := by
  simp [sir_ode, control_signal, controlSample, listMin, listMax, fdiv, hsn]

/-- Witness for C3 at concrete inputs (the identity satisfies sn 0 = 0). -/
theorem sir_ode_sin_eq_none_witness :
    ((fun x : ℚ => x) 0 = 0) ∧
    sir_ode (fun x => x) (fun x => x) (157 / 50) (2, 3, 4) 7 (3 / 10) (1 / 10)
        100 "sin" (1 / 2) 2 (some 1) =
      sir_ode (fun x => x) (fun x => x) (157 / 50) (2, 3, 4) 7 (3 / 10) (1 / 10)
        100 "none" (9 / 10) 5 Option.none :=
  ⟨rfl,
   sir_ode_sin_eq_none (fun x => x) (fun x => x) (157 / 50) rfl (2, 3, 4) 7
     (3 / 10) (1 / 10) 100 (1 / 2) 2 (9 / 10) 5 (some 1) Option.none⟩

/-- Claim C6 (amended): whenever sir_ode returns a well-defined derivative
vector (the control sample is not NaN and N is nonzero), the three
derivatives sum to exactly zero. -/
theorem sir_ode_sum_zero (sn ex : ℚ → ℚ) (piv : ℚ) (y : ℚ × ℚ × ℚ)
    (t beta gamma N : ℚ) (signal_type : String) (amp freq : ℚ)
    (step_time : Option ℚ) (d : ℚ × ℚ × ℚ)
    (h : sir_ode sn ex piv y t beta gamma N signal_type amp freq step_time = some d) :
    d.1 + d.2.1 + d.2.2 = 0 := by
  obtain ⟨d1, d2, d3⟩ := d
  show d1 + d2 + d3 = 0
  unfold sir_ode at h
  rw [Option.bind_eq_some] at h
  obtain ⟨u, -, h⟩ := h
  unfold fdiv at h
  split_ifs at h
  · exact absurd h (by simp)
  · rw [Option.map_some', Option.some.injEq, Prod.mk.injEq, Prod.mk.injEq] at h
    obtain ⟨h1, h2, h3⟩ := h
    subst h1
    subst h2
    subst h3
    ring

/-- Witness for C6: the `none` variant at S=5, I=6, R=7, N=10. -/
theorem sir_ode_sum_zero_witness :
    sir_ode (fun x => x) (fun x => x) (157 / 50) (5, 6, 7) 2 (3 / 10) (1 / 10)
        10 "none" (1 / 2) 1 Option.none = some (-(9 / 10), 3 / 10, 3 / 5) ∧
    (-(9 / 10) : ℚ) + 3 / 10 + 3 / 5 = 0 := by
  have h : sir_ode (fun x : ℚ => x) (fun x : ℚ => x) (157 / 50) (5, 6, 7) 2
      (3 / 10) (1 / 10) 10 "none" (1 / 2) 1 Option.none =
      some (-(9 / 10), 3 / 10, 3 / 5) := by
    simp [sir_ode, control_signal, controlSample, listMin, listMax, fdiv]
    norm_num
  exact ⟨h, sir_ode_sum_zero (fun x => x) (fun x => x) (157 / 50) (5, 6, 7) 2
    (3 / 10) (1 / 10) 10 "none" (1 / 2) 1 Option.none (-(9 / 10), 3 / 10, 3 / 5) h⟩

/-- Counterexample for C6: with the `ramp` signal the single-point control
evaluation inside sir_ode is 0/0 = NaN, the derivatives are NaN, and no
well-defined derivative vector summing to zero is returned. -/
theorem sir_ode_ramp_no_sum_zero :
    sir_ode (fun x => x) (fun x => x) (157 / 50) (1, 1, 1) 0 (3 / 10) (1 / 10)
        100 "ramp" (1 / 2) 1 Option.none = Option.none ∧
    ¬ ∃ d : ℚ × ℚ × ℚ,
        sir_ode (fun x => x) (fun x => x) (157 / 50) (1, 1, 1) 0 (3 / 10) (1 / 10)
          100 "ramp" (1 / 2) 1 Option.none = some d ∧
        d.1 + d.2.1 + d.2.2 = 0 := by
  have h : sir_ode (fun x : ℚ => x) (fun x : ℚ => x) (157 / 50) (1, 1, 1) 0
      (3 / 10) (1 / 10) 100 "ramp" (1 / 2) 1 Option.none = Option.none := by
    simp [sir_ode, control_signal, controlSample, listMin, listMax, fdiv]
  refine ⟨h, ?_⟩
  rintro ⟨d, hd, -⟩
  rw [h] at hd
  exact Option.noConfusion hd

/-- Claim C10: every signal_type outside the documented enum falls through
to the `np.ones_like` branch: the result is 1 at every sample, identical to
the `none` variant. -/
theorem control_signal_unknown_all_ones (sn ex : ℚ → ℚ) (piv : ℚ)
    (signal_type : String) (amp freq : ℚ) (step_time : Option ℚ) (ts : List ℚ)
    (h1 : signal_type ≠ "step") (h2 : signal_type ≠ "impulse")
    (h3 : signal_type ≠ "ramp") (h4 : signal_type ≠ "sin") :
    control_signal sn ex piv signal_type amp freq step_time ts =
      ts.map (fun _ => some (1 : ℚ)) ∧
    control_signal sn ex piv signal_type amp freq step_time ts =
      control_signal sn ex piv "none" amp freq step_time ts := by
  constructor <;>
    simp [control_signal, controlSample, h1, h2, h3, h4]

/-- Witness for C10: a typo string "stpe" on a concrete time set. -/
theorem control_signal_unknown_all_ones_witness :
    (("stpe" : String) ≠ "step") ∧
    control_signal (fun x : ℚ => x) (fun x : ℚ => x) (157 / 50) "stpe" (1 / 2) 1
        Option.none [0, 1, 2] = [some 1, some 1, some 1] := by
  have h := control_signal_unknown_all_ones (fun x : ℚ => x) (fun x : ℚ => x)
    (157 / 50) "stpe" (1 / 2) 1 Option.none [0, 1, 2]
    (by decide) (by decide) (by decide) (by decide)
  exact ⟨by decide, h.1⟩

/-- Claim C4: appending a run with save_history_entry and reading the
returned id back with get_history_entry yields a record whose parameter and
statistics fields match the appended entry, with id and timestamp the
auto-populated values, and the returned id equal to the stored record's id.
The freshness of the generated UUID enters as the hypothesis that no stored
row already carries it. -/
theorem save_then_get_round_trip (store : List HistoryRecord) (entry_id ts : String)
    (beta gamma N I0 R0 days : ℚ) (signal_type : String) (amp freq : ℚ)
    (step_time : Option ℚ) (summary_text : Option String)
    (peak_I peak_day final_S final_I final_R : Option ℚ)
    (fresh : ∀ r ∈ store, r.id ≠ entry_id) :
    (save_history_entry store entry_id ts beta gamma N I0 R0 days signal_type
        amp freq step_time summary_text peak_I peak_day final_S final_I final_R).2 =
      entry_id ∧
    get_history_entry
        (save_history_entry store entry_id ts beta gamma N I0 R0 days signal_type
          amp freq step_time summary_text peak_I peak_day final_S final_I final_R).1
        entry_id =
      some { id := entry_id, timestamp := ts, beta := beta, gamma := gamma, N := N,
             I0 := I0, R0 := R0, days := days, signal := signal_type, amp := amp,
             freq := freq, step_time := step_time, peak_I := peak_I,
             peak_day := peak_day, final_S := final_S, final_I := final_I,
             final_R := final_R, summary := summary_text.getD emptyStr } := by
  refine ⟨rfl, ?_⟩
  unfold get_history_entry save_history_entry
  rw [List.filter_append]
  have hnil : store.filter (fun r => r.id == entry_id) = [] := by
    rw [List.filter_eq_nil_iff]
    intro r hr
    simp [fresh r hr]
  rw [hnil]
  simp

/-- Witness for C4 on the empty store with concrete parameters. -/
theorem save_then_get_round_trip_witness :
    (∀ r ∈ ([] : List HistoryRecord), r.id ≠ "a1") ∧
    (save_history_entry [] "a1" "2024-01-01T00:00:00" (3 / 10) (1 / 10) 1000 10 0
        100 "none" (1 / 2) 1 Option.none (some "ok") (some 5) (some 2) (some 1)
        (some 1) (some 3)).2 = "a1" ∧
    get_history_entry
        (save_history_entry [] "a1" "2024-01-01T00:00:00" (3 / 10) (1 / 10) 1000 10 0
          100 "none" (1 / 2) 1 Option.none (some "ok") (some 5) (some 2) (some 1)
          (some 1) (some 3)).1 "a1" =
      some { id := "a1", timestamp := "2024-01-01T00:00:00", beta := 3 / 10,
             gamma := 1 / 10, N := 1000, I0 := 10, R0 := 0, days := 100,
             signal := "none", amp := 1 / 2, freq := 1, step_time := Option.none,
             peak_I := some 5, peak_day := some 2, final_S := some 1,
             final_I := some 1, final_R := some 3,
             summary := (some "ok").getD emptyStr } :=
  ⟨by simp,
   save_then_get_round_trip [] "a1" "2024-01-01T00:00:00" (3 / 10) (1 / 10) 1000
     10 0 100 "none" (1 / 2) 1 Option.none (some "ok") (some 5) (some 2) (some 1)
     (some 1) (some 3) (by simp)⟩

/-- Claim C9: on an empty or freshly initialized store — no file, a
zero-byte file, or the header-only file — load_history_df returns the empty
frame with the canonical 18-column schema rather than an error, and the
history route renders the empty table. -/
theorem load_history_empty_store (f : Option (List (List String)))
    (hf : f = Option.none ∨ f = some [] ∨ f = some [canonicalCols]) :
    load_history_df f = some { cols := canonicalCols, rows := [] } ∧
    history_route f = some [] := by
  rcases hf with rfl | rfl | rfl
  · exact ⟨rfl, rfl⟩
  · exact ⟨rfl, rfl⟩
  · exact ⟨rfl, rfl⟩

/-- Witness for C9: the absent-file state. -/
theorem load_history_empty_store_witness :
    ((Option.none : Option (List (List String))) = Option.none ∨
      (Option.none : Option (List (List String))) = some [] ∨
      (Option.none : Option (List (List String))) = some [canonicalCols]) ∧
    (load_history_df Option.none = some { cols := canonicalCols, rows := [] } ∧
      history_route Option.none = some []) :=
  ⟨Or.inl rfl, load_history_empty_store Option.none (Or.inl rfl)⟩

/-- Invariant of the nanargmax loop: the result is either the incoming best
index (and nothing in the remaining list beats the incoming best value), or
`i + j` for a position `j` holding a strict improvement that is maximal in
the remaining list and strictly above every earlier remaining entry. -/
theorem nanargmaxAux_spec (xs : List ℚ) (i bi : Nat) (bv : ℚ) :
    (nanargmaxAux xs i bi bv = bi ∧ ∀ y ∈ xs, y ≤ bv) ∨
    (∃ j, j < xs.length ∧ nanargmaxAux xs i bi bv = i + j ∧
      bv < xs.getD j 0 ∧ (∀ y ∈ xs, y ≤ xs.getD j 0) ∧
      ∀ j2, j2 < j → xs.getD j2 0 < xs.getD j 0) := by
  induction xs generalizing i bi bv with
  | nil =>
    exact Or.inl ⟨rfl, by simp⟩
  | cons x xs ih =>
    by_cases hx : bv < x
    · have hrec : nanargmaxAux (x :: xs) i bi bv = nanargmaxAux xs (i + 1) i x := by
        simp [nanargmaxAux, hx]
      rcases ih (i + 1) i x with ⟨heq, hall⟩ | ⟨j, hj, heq, hlt, hall, hfirst⟩
      · refine Or.inr ⟨0, by simp, ?_, ?_, ?_, ?_⟩
        · rw [hrec, heq, Nat.add_zero]
        · rw [List.getD_cons_zero]
          exact hx
        · rw [List.getD_cons_zero]
          intro y hy
          rcases List.mem_cons.mp hy with rfl | hy
          · exact le_refl y
          · exact hall y hy
        · intro j2 hj2
          exact absurd hj2 (Nat.not_lt_zero j2)
      · refine Or.inr ⟨j + 1, by rw [List.length_cons]; omega, ?_, ?_, ?_, ?_⟩
        · rw [hrec, heq]
          omega
        · rw [List.getD_cons_succ]
          exact lt_trans hx hlt
        · rw [List.getD_cons_succ]
          intro y hy
          rcases List.mem_cons.mp hy with rfl | hy
          · exact le_of_lt hlt
          · exact hall y hy
        · intro j2 hj2
          rw [List.getD_cons_succ]
          cases j2 with
          | zero =>
            rw [List.getD_cons_zero]
            exact hlt
          | succ j3 =>
            rw [List.getD_cons_succ]
            exact hfirst j3 (Nat.lt_of_succ_lt_succ hj2)
    · have hrec : nanargmaxAux (x :: xs) i bi bv = nanargmaxAux xs (i + 1) bi bv := by
        simp [nanargmaxAux, hx]
      rcases ih (i + 1) bi bv with ⟨heq, hall⟩ | ⟨j, hj, heq, hlt, hall, hfirst⟩
      · refine Or.inl ⟨by rw [hrec, heq], ?_⟩
        intro y hy
        rcases List.mem_cons.mp hy with rfl | hy
        · exact le_of_not_lt hx
        · exact hall y hy
      · refine Or.inr ⟨j + 1, by rw [List.length_cons]; omega, ?_, ?_, ?_, ?_⟩
        · rw [hrec, heq]
          omega
        · rw [List.getD_cons_succ]
          exact hlt
        · rw [List.getD_cons_succ]
          intro y hy
          rcases List.mem_cons.mp hy with rfl | hy
          · exact le_of_lt (lt_of_le_of_lt (le_of_not_lt hx) hlt)
          · exact hall y hy
        · intro j2 hj2
          rw [List.getD_cons_succ]
          cases j2 with
          | zero =>
            rw [List.getD_cons_zero]
            exact lt_of_le_of_lt (le_of_not_lt hx) hlt
          | succ j3 =>
            rw [List.getD_cons_succ]
            exact hfirst j3 (Nat.lt_of_succ_lt_succ hj2)

/-- nanargmax of a nonempty list is an in-range index of the maximum, and
every strictly earlier entry is strictly below it (first occurrence). -/
theorem nanargmax_first_max (I : List ℚ) (hI : I ≠ []) :
    nanargmax I < I.length ∧
    (∀ y ∈ I, y ≤ I.getD (nanargmax I) 0) ∧
    ∀ j, j < nanargmax I → I.getD j 0 < I.getD (nanargmax I) 0 := by
  match I, hI with
  | x :: xs, _ =>
    have hdef : nanargmax (x :: xs) = nanargmaxAux xs 1 0 x := rfl
    rcases nanargmaxAux_spec xs 1 0 x with ⟨heq, hall⟩ | ⟨j, hj, heq, hlt, hall, hfirst⟩
    · rw [hdef, heq]
      refine ⟨by rw [List.length_cons]; omega, ?_, ?_⟩
      · rw [List.getD_cons_zero]
        intro y hy
        rcases List.mem_cons.mp hy with rfl | hy
        · exact le_refl y
        · exact hall y hy
      · intro j2 hj2
        exact absurd hj2 (Nat.not_lt_zero j2)
    · rw [hdef, heq, Nat.add_comm 1 j]
      refine ⟨by rw [List.length_cons]; omega, ?_, ?_⟩
      · rw [List.getD_cons_succ]
        intro y hy
        rcases List.mem_cons.mp hy with rfl | hy
        · exact le_of_lt hlt
        · exact hall y hy
      · intro j2 hj2
        rw [List.getD_cons_succ]
        cases j2 with
        | zero =>
          rw [List.getD_cons_zero]
          exact hlt
        | succ j3 =>
          rw [List.getD_cons_succ]
          exact hfirst j3 (Nat.lt_of_succ_lt_succ hj2)

/-- Claim C7: on a nonempty trajectory (all series nonempty, so the
`np.nanmax(u)` ValueError path for an active signal is not hit),
generate_summary's peak_I is the maximum of the I series, peak_day is the t
value at the first index attaining that maximum, and final_S, final_I,
final_R are the last samples of their series. -/
theorem generate_summary_peak_and_finals (beta gamma N I0 R0 days : ℚ)
    (t S I R : List ℚ) (u : List (Option ℚ)) (signal_type : String)
    (hI : I ≠ []) (hlen : t.length = I.length) (hS : S ≠ []) (hR : R ≠ [])
    (hu : u ≠ []) :
    ∃ s : SummaryOut,
      generate_summary beta gamma N I0 R0 days t S I R u signal_type = some s ∧
      s.peak_I ∈ I ∧ (∀ y ∈ I, y ≤ s.peak_I) ∧
      (∃ k, k < I.length ∧ I.getD k 0 = s.peak_I ∧
        (∀ j, j < k → I.getD j 0 < s.peak_I) ∧ s.peak_day = t.getD k 0) ∧
      s.final_S = S.getLastD 0 ∧ s.final_I = I.getLastD 0 ∧
      s.final_R = R.getLastD 0 := by
  obtain ⟨hrange, hmax, hfirst⟩ := nanargmax_first_max I hI
  have hguard : ¬ (I = [] ∨ t.length ≤ nanargmax I ∨ S = [] ∨ R = [] ∨
      ((signal_type ≠ emptyStr ∧ signal_type ≠ "none") ∧ u = [])) := by
    push_neg
    refine ⟨hI, ?_, hS, hR, fun _ => hu⟩
    rw [hlen]
    exact hrange
  unfold generate_summary
  rw [if_neg hguard]
  refine ⟨_, rfl, ?_, ?_, ?_, ?_, ?_, ?_⟩
  · show I.getD (nanargmax I) 0 ∈ I
    rw [List.getD_eq_getElem _ _ hrange]
    exact List.getElem_mem _
  · exact hmax
  · exact ⟨nanargmax I, hrange, rfl, hfirst, rfl⟩
  · rfl
  · rfl
  · rfl

/-- Witness for C7 on the concrete trajectory t=[0,1,2], I=[1,3,3]. -/
theorem generate_summary_peak_and_finals_witness :
    (([1, 3, 3] : List ℚ) ≠ [] ∧ ([0, 1, 2] : List ℚ).length = ([1, 3, 3] : List ℚ).length ∧
      ([9, 8, 7] : List ℚ) ≠ [] ∧ ([0, 1, 2] : List ℚ) ≠ [] ∧
      ([some 1, some 1, some 1] : List (Option ℚ)) ≠ []) ∧
    (∃ s : SummaryOut,
      generate_summary (3 / 10) (1 / 10) 1000 10 0 100 [0, 1, 2] [9, 8, 7]
          [1, 3, 3] [0, 1, 2] [some 1, some 1, some 1] "none" = some s ∧
      s.peak_I ∈ ([1, 3, 3] : List ℚ) ∧ (∀ y ∈ ([1, 3, 3] : List ℚ), y ≤ s.peak_I) ∧
      (∃ k, k < ([1, 3, 3] : List ℚ).length ∧ ([1, 3, 3] : List ℚ).getD k 0 = s.peak_I ∧
        (∀ j, j < k → ([1, 3, 3] : List ℚ).getD j 0 < s.peak_I) ∧
        s.peak_day = ([0, 1, 2] : List ℚ).getD k 0) ∧
      s.final_S = ([9, 8, 7] : List ℚ).getLastD 0 ∧
      s.final_I = ([1, 3, 3] : List ℚ).getLastD 0 ∧
      s.final_R = ([0, 1, 2] : List ℚ).getLastD 0) :=
  ⟨⟨by simp, by simp, by simp, by simp, by simp⟩,
   generate_summary_peak_and_finals (3 / 10) (1 / 10) 1000 10 0 100 [0, 1, 2]
     [9, 8, 7] [1, 3, 3] [0, 1, 2] [some 1, some 1, some 1] "none"
     (by simp) (by simp) (by simp) (by simp) (by simp)⟩

/-- Claim C5: with gamma = 0 and a nonempty trajectory (all series nonempty,
u included, since for an active signal an empty u would make `np.nanmax(u)`
raise ValueError), generate_summary returns a result (no crash): R0_basic is
reported as positive infinity, the narrative selects the fast-spread tier,
and the recommendation is the matching intervention advice. -/
theorem generate_summary_gamma_zero_inf (beta N I0 R0 days : ℚ)
    (t S I R : List ℚ) (u : List (Option ℚ)) (signal_type : String)
    (hI : I ≠ []) (hlen : t.length = I.length) (hS : S ≠ []) (hR : R ≠ [])
    (hu : u ≠ []) :
    ∃ s : SummaryOut,
      generate_summary beta 0 N I0 R0 days t S I R u signal_type = some s ∧
      s.R0_basic = XQ.inf ∧ s.tier = SpreadTier.fast ∧
      s.advice = Advice.intervene := by
  obtain ⟨hrange, -, -⟩ := nanargmax_first_max I hI
  have hguard : ¬ (I = [] ∨ t.length ≤ nanargmax I ∨ S = [] ∨ R = [] ∨
      ((signal_type ≠ emptyStr ∧ signal_type ≠ "none") ∧ u = [])) := by
    push_neg
    refine ⟨hI, ?_, hS, hR, fun _ => hu⟩
    rw [hlen]
    exact hrange
  unfold generate_summary
  rw [if_neg hguard]
  refine ⟨_, rfl, ?_, ?_, ?_⟩
  · show (if (0 : ℚ) ≠ 0 then XQ.fin (beta / 0) else XQ.inf) = XQ.inf
    simp
  · show (if ((if (0 : ℚ) ≠ 0 then XQ.fin (beta / 0) else XQ.inf).gtQ (3 / 2)) then
        SpreadTier.fast
      else if ((if (0 : ℚ) ≠ 0 then XQ.fin (beta / 0) else XQ.inf).gtQ 1 &&
          (if (0 : ℚ) ≠ 0 then XQ.fin (beta / 0) else XQ.inf).leQ (3 / 2)) then
        SpreadTier.moderate
      else SpreadTier.controlled) = SpreadTier.fast
    simp [XQ.gtQ]
  · show (if ((if (0 : ℚ) ≠ 0 then XQ.fin (beta / 0) else XQ.inf).gtQ (3 / 2)) then
        Advice.intervene
      else Advice.observe) = Advice.intervene
    simp [XQ.gtQ]

/-- Witness for C5 with beta = 3/10, gamma = 0 on a small trajectory. -/
theorem generate_summary_gamma_zero_inf_witness :
    (([1, 2] : List ℚ) ≠ [] ∧ ([0, 1] : List ℚ).length = ([1, 2] : List ℚ).length ∧
      ([4, 3] : List ℚ) ≠ [] ∧ ([0, 1] : List ℚ) ≠ [] ∧
      ([some 1, some 1] : List (Option ℚ)) ≠ []) ∧
    (∃ s : SummaryOut,
      generate_summary (3 / 10) 0 1000 10 0 100 [0, 1] [4, 3] [1, 2] [0, 1]
          [some 1, some 1] "none" = some s ∧
      s.R0_basic = XQ.inf ∧ s.tier = SpreadTier.fast ∧
      s.advice = Advice.intervene) :=
  ⟨⟨by simp, by simp, by simp, by simp, by simp⟩,
   generate_summary_gamma_zero_inf (3 / 10) 1000 10 0 100 [0, 1] [4, 3] [1, 2]
     [0, 1] [some 1, some 1] "none" (by simp) (by simp) (by simp) (by simp)
     (by simp)⟩

/-- The grid always has exactly the requested number of samples. -/
theorem length_linspace (a b : ℚ) (n : Nat) : (linspace a b n).length = n := by
  unfold linspace
  split_ifs with h
  · rw [h]
    rfl
  · rw [List.length_map, List.length_range]

/-- Closed form of the k-th grid sample for two or more points. -/
theorem linspace_getD (a b : ℚ) (n k : Nat) (hn : 2 ≤ n) (hk : k < n) :
    (linspace a b n).getD k 0 = a + (b - a) * k / ((n : ℚ) - 1) := by
  unfold linspace
  rw [if_neg (by omega : ¬ n = 1)]
  rw [List.getD_eq_getElem _ _ (by rw [List.length_map, List.length_range]; exact hk)]
  rw [List.getElem_map]
  rw [List.getElem_range]

/-- Claim C8: simulate_sir returns a trajectory of exactly npoints samples
evenly spaced over [0, days] — first sample 0, last sample days, constant
spacing days/(npoints-1) — whose first state row equals the initial
condition (S0, I0, R0) with S0 = max(N - I0 - R0, 0), which clamps at 0
whenever I0 + R0 reaches N.  The solver hypotheses are odeint's documented
contract: one output row per requested time, the first row being y0. -/
theorem simulate_sir_grid_spec
    (solver : ((ℚ × ℚ × ℚ) → ℚ → Option (ℚ × ℚ × ℚ)) → (ℚ × ℚ × ℚ) →
      List ℚ → List (ℚ × ℚ × ℚ))
    (sn ex : ℚ → ℚ) (piv : ℚ) (beta gamma N I0 R0 days : ℚ) (npoints : Nat)
    (signal_type : String) (amp freq : ℚ) (step_time : Option ℚ)
    (hslen : ∀ f y0 ts, (solver f y0 ts).length = ts.length)
    (hsfirst : ∀ f y0 ts, ts ≠ [] → (solver f y0 ts).head? = some y0)
    (hn : 2 ≤ npoints) :
    (simulate_sir solver sn ex piv beta gamma N I0 R0 days npoints signal_type
        amp freq step_time).1.length = npoints ∧
    (simulate_sir solver sn ex piv beta gamma N I0 R0 days npoints signal_type
        amp freq step_time).2.1.length = npoints ∧
    (simulate_sir solver sn ex piv beta gamma N I0 R0 days npoints signal_type
        amp freq step_time).2.1.head? = some (max (N - I0 - R0) 0, I0, R0) ∧
    (simulate_sir solver sn ex piv beta gamma N I0 R0 days npoints signal_type
        amp freq step_time).1.getD 0 0 = 0 ∧
    (simulate_sir solver sn ex piv beta gamma N I0 R0 days npoints signal_type
        amp freq step_time).1.getD (npoints - 1) 0 = days ∧
    (∀ k, k + 1 < npoints →
      (simulate_sir solver sn ex piv beta gamma N I0 R0 days npoints signal_type
          amp freq step_time).1.getD (k + 1) 0 -
        (simulate_sir solver sn ex piv beta gamma N I0 R0 days npoints signal_type
          amp freq step_time).1.getD k 0 = days / ((npoints : ℚ) - 1)) ∧
    (N ≤ I0 + R0 →
      (simulate_sir solver sn ex piv beta gamma N I0 R0 days npoints signal_type
          amp freq step_time).2.1.head? = some (0, I0, R0)) := by
  have hne : ((npoints : ℚ) - 1) ≠ 0 :=
    sub_ne_zero.mpr (ne_of_gt (by exact_mod_cast (by omega : 1 < npoints)))
  have hts : linspace 0 days npoints ≠ [] := by
    intro h
    have := length_linspace 0 days npoints
    rw [h] at this
    simp at this
    omega
  have hhead :
      (simulate_sir solver sn ex piv beta gamma N I0 R0 days npoints signal_type
        amp freq step_time).2.1.head? = some (max (N - I0 - R0) 0, I0, R0) :=
    hsfirst _ _ _ hts
  refine ⟨length_linspace 0 days npoints, ?_, hhead, ?_, ?_, ?_, ?_⟩
  · show (solver _ _ (linspace 0 days npoints)).length = npoints
    rw [hslen, length_linspace]
  · rw [show (simulate_sir solver sn ex piv beta gamma N I0 R0 days npoints
        signal_type amp freq step_time).1 = linspace 0 days npoints from rfl]
    rw [linspace_getD 0 days npoints 0 hn (by omega)]
    norm_num
  · rw [show (simulate_sir solver sn ex piv beta gamma N I0 R0 days npoints
        signal_type amp freq step_time).1 = linspace 0 days npoints from rfl]
    rw [linspace_getD 0 days npoints (npoints - 1) hn (by omega)]
    rw [Nat.cast_sub (by omega : 1 ≤ npoints), Nat.cast_one]
    rw [zero_add, sub_zero, mul_div_assoc, div_self hne, mul_one]
  · intro k hk
    rw [show (simulate_sir solver sn ex piv beta gamma N I0 R0 days npoints
        signal_type amp freq step_time).1 = linspace 0 days npoints from rfl]
    rw [linspace_getD 0 days npoints (k + 1) hn hk,
      linspace_getD 0 days npoints k hn (by omega)]
    rw [zero_add, zero_add, sub_zero, div_sub_div_same]
    congr 1
    push_cast
    ring
  · intro hclamp
    rw [hhead, max_eq_right (by linarith : N - I0 - R0 ≤ 0)]

/-- Witness for C8: a constant solver satisfying odeint's contract on a
3-point grid over 6 days. -/
theorem simulate_sir_grid_spec_witness :
    (∀ f y0 ts, ((fun (_ : (ℚ × ℚ × ℚ) → ℚ → Option (ℚ × ℚ × ℚ))
        (y : ℚ × ℚ × ℚ) (ts2 : List ℚ) => ts2.map (fun _ => y)) f y0 ts).length =
        ts.length) ∧
    (2 ≤ 3) ∧
    ((simulate_sir (fun _ y ts2 => ts2.map (fun _ => y)) (fun x => x) (fun x => x)
        (157 / 50) (3 / 10) (1 / 10) 5 4 3 6 3 "none" (1 / 2) 1
        Option.none).1.length = 3 ∧
      (simulate_sir (fun _ y ts2 => ts2.map (fun _ => y)) (fun x => x) (fun x => x)
        (157 / 50) (3 / 10) (1 / 10) 5 4 3 6 3 "none" (1 / 2) 1
        Option.none).2.1.head? = some (0, 4, 3)) := by
  have hslen : ∀ (f : (ℚ × ℚ × ℚ) → ℚ → Option (ℚ × ℚ × ℚ)) (y0 : ℚ × ℚ × ℚ)
      (ts : List ℚ),
      ((fun (_ : (ℚ × ℚ × ℚ) → ℚ → Option (ℚ × ℚ × ℚ))
        (y : ℚ × ℚ × ℚ) (ts2 : List ℚ) => ts2.map (fun _ => y)) f y0 ts).length =
        ts.length := by
    intro f y0 ts
    exact List.length_map ts _
  have hsfirst : ∀ (f : (ℚ × ℚ × ℚ) → ℚ → Option (ℚ × ℚ × ℚ)) (y0 : ℚ × ℚ × ℚ)
      (ts : List ℚ), ts ≠ [] →
      ((fun (_ : (ℚ × ℚ × ℚ) → ℚ → Option (ℚ × ℚ × ℚ))
        (y : ℚ × ℚ × ℚ) (ts2 : List ℚ) => ts2.map (fun _ => y)) f y0 ts).head? =
        some y0 := by
    intro f y0 ts hts
    cases ts with
    | nil => exact absurd rfl hts
    | cons a l => rfl
  have h := simulate_sir_grid_spec (fun _ y ts2 => ts2.map (fun _ => y))
    (fun x => x) (fun x => x) (157 / 50) (3 / 10) (1 / 10) 5 4 3 6 3 "none"
    (1 / 2) 1 Option.none hslen hsfirst (by omega)
  refine ⟨hslen, by omega, h.1, ?_⟩
  have hclamp := h.2.2.2.2.2.2 (by norm_num)
  exact hclamp
